import Mathlib

/-!
Verification model of `src/splunkbase_urls.py`.

The script is a thin HTTP client: `get_splunkbase_app_info` performs two GET
requests (app metadata, then release list), parses the JSON bodies and builds a
download URL; `get_multiple_splunkbase_urls` maps it over a list of app ids and
comma-joins the URLs that came back truthy.

We embed the Python shallowly:
* `Py` models the Python values that `response.json()` can produce (JSON null
  parses to Python `None`, which is also the "absent" marker in the returned
  triple — Python does not distinguish the two, and neither does the model).
* `ReqResult` models the outcome of one `requests.get` + `raise_for_status` +
  `.json()` sequence: a parsed body, a transport failure at `get`, an HTTP
  error status raised by `raise_for_status`, or an unparseable body raised by
  `.json()` (a `requests.exceptions.JSONDecodeError`, which is a
  `RequestException` in the `requests` versions the script targets).
* `PyErr` models the Python exception classes the control flow can see.
* Effects are explicit: printed diagnostics are collected in a `List String`,
  and an uncaught exception is an `Except.error`.
-/

/-- Python values produced by parsing JSON. `Py.none` is Python `None`
(the parse of JSON `null`, and also the absent slot of the result triple).
`Py.dict` models a parsed dict: keys are distinct (JSON parsing deduplicates),
lookup returns the first match. -/
inductive Py where
  | none : Py
  | bool : Bool → Py
  | int : Int → Py
  | str : String → Py
  | list : List Py → Py
  | dict : List (String × Py) → Py

/-- Python exceptions relevant to the script: `requests.RequestException`
(with its `str(e)` text), `KeyError` (with the missing key), `IndexError`,
`TypeError` and `AttributeError` (with their messages). The script catches
the first three; the last two propagate. -/
inductive PyErr where
  | requestException : String → PyErr
  | keyError : String → PyErr
  | indexError : String → PyErr
  | typeError : String → PyErr
  | attributeError : String → PyErr

/-- `str(e)` for the exceptions above; `str(KeyError(k))` is `repr(k)`. -/
def errStr : PyErr → String
  | .requestException d => d
  | .keyError k => "\x27" ++ k ++ "\x27"
  | .indexError d => d
  | .typeError d => d
  | .attributeError d => d

/-- Python type name, as used in error messages. -/
def pyTypeName : Py → String
  | .none => "NoneType"
  | .bool _ => "bool"
  | .int _ => "int"
  | .str _ => "str"
  | .list _ => "list"
  | .dict _ => "dict"

mutual

/-- Python repr() of a parsed-JSON value (strings shown with single quotes;
the model does not escape quote characters inside strings). -/
def pyRepr : Py → String
  | .none => "None"
  | .bool true => "True"
  | .bool false => "False"
  | .int n => toString n
  | .str s => "\x27" ++ s ++ "\x27"
  | .list xs => "[" ++ String.intercalate ", " (pyReprList xs) ++ "]"
  | .dict kvs => "\x7b" ++ String.intercalate ", " (pyReprKVs kvs) ++ "\x7d"

/-- repr() of each element of a list. -/
def pyReprList : List Py → List String
  | [] => []
  | x :: xs => pyRepr x :: pyReprList xs

/-- repr() of each `key: value` entry of a dict. -/
def pyReprKVs : List (String × Py) → List String
  | [] => []
  | (k, v) :: kvs => ("\x27" ++ k ++ "\x27: " ++ pyRepr v) :: pyReprKVs kvs

end

/-- Python str() of a parsed-JSON value (as used by f-string interpolation). -/
def pyStr : Py → String
  | .str s => s
  | v => pyRepr v

/-- Python dict lookup on a parsed dict (keys distinct; first match). -/
def lookupKV : List (String × Py) → String → Option Py
  | [], _ => Option.none
  | (k, v) :: kvs, key => if k == key then some v else lookupKV kvs key

/-- Python truthiness of a parsed-JSON value. -/
def pyTruthy : Py → Bool
  | .none => false
  | .bool b => b
  | .int n => n != 0
  | .str s => s != ""
  | .list xs => !xs.isEmpty
  | .dict kvs => !kvs.isEmpty

/-- `isinstance(v, list)`. -/
def pyIsList : Py → Bool
  | .list _ => true
  | _ => false

/-- `len(v) > 0` for the values on which the script evaluates it (it is only
reached after an `isinstance(v, list)` guard, so only the list case matters). -/
def pyLenPos : Py → Bool
  | .list xs => !xs.isEmpty
  | _ => false

/-- `v.get(key, default)`: dict lookup with default; any non-dict value has no
`get` attribute and raises `AttributeError`. -/
def pyGet (v : Py) (key : String) (default : Py) : Except PyErr Py :=
  match v with
  | .dict kvs => .ok ((lookupKV kvs key).getD default)
  | _ => .error (.attributeError
      ("\x27" ++ pyTypeName v ++ "\x27 object has no attribute \x27get\x27"))

/-- `v[i]` for an integer index `i ≥ 0`: lists and strings index (raising
`IndexError` out of range), dicts raise `KeyError` (parsed-JSON keys are
strings, so an integer key is never present), other values raise `TypeError`. -/
def pyIndex (v : Py) (i : Nat) : Except PyErr Py :=
  match v with
  | .list xs =>
      match xs.get? i with
      | some x => .ok x
      | Option.none => .error (.indexError "list index out of range")
  | .str s =>
      match s.data.get? i with
      | some c => .ok (.str (String.mk [c]))
      | Option.none => .error (.indexError "string index out of range")
  | .dict _ => .error (.keyError (toString i))
  | _ => .error (.typeError
      ("\x27" ++ pyTypeName v ++ "\x27 object is not subscriptable"))

/-- `v[key]` for a string key: dicts look up (raising `KeyError` when the key
is missing), every other value raises `TypeError`. -/
def pyGetItem (v : Py) (key : String) : Except PyErr Py :=
  match v with
  | .dict kvs =>
      match lookupKV kvs key with
      | some x => .ok x
      | Option.none => .error (.keyError key)
  | _ => .error (.typeError
      ("\x27" ++ pyTypeName v ++ "\x27 object is not subscriptable by str"))

/-- Outcome of one `requests.get(url, timeout=10)` + `raise_for_status()` +
`.json()` sequence: parsed body, transport failure at `get` (raises a
`RequestException` such as `ConnectionError`/`Timeout`), non-2xx status
(`raise_for_status` raises `HTTPError`, a `RequestException`), or a 2xx body
that is not JSON (`.json()` raises `requests.exceptions.JSONDecodeError`,
a `RequestException`). Each failure carries its `str(e)` text. -/
inductive ReqResult where
  | ok : Py → ReqResult
  | connError : String → ReqResult
  | httpError : String → ReqResult
  | jsonError : String → ReqResult

/-- The `response = requests.get(...); response.raise_for_status();
data = response.json()` sequence, as one step from the request outcome to the
parsed body or the raised `RequestException`. -/
def fetchJson : ReqResult → Except PyErr Py
  | .ok body => .ok body
  | .connError d => .error (.requestException d)
  | .httpError d => .error (.requestException d)
  | .jsonError d => .error (.requestException d)

/-- The `try:` block of `get_splunkbase_app_info` (lines 27-45 of
`splunkbase_urls.py`): fetch app metadata, read `title` with default
`"Unknown"`, fetch the release list, and either build the triple from
element 0's `name` or print the unexpected-structure diagnostic and return
`(app_name, None, None)`. Returns the triple together with the lines printed
inside the block, or the exception it raises. -/
def tryBody (app_id : String) (rApp rRel : ReqResult) :
    Except PyErr (Py × Py × Py × List String) := do
  let app_data ← fetchJson rApp
  let app_name ← pyGet app_data "title" (.str "Unknown")
  let release_data ← fetchJson rRel
  if pyTruthy release_data && pyIsList release_data && pyLenPos release_data then
    let e0 ← pyIndex release_data 0
    let version ← pyGetItem e0 "name"
    let download_url := "https://splunkbase.splunk.com/app/" ++ app_id ++
      "/release/" ++ pyStr version ++ "/download/"
    pure (app_name, version, .str download_url, [])
  else
    pure (app_name, .none, .none,
      ["Error: Unexpected response structure for app " ++ app_id])

/-- `get_splunkbase_app_info(app_id)` under explicit request outcomes for the
two URLs it contacts. The `except requests.RequestException` and
`except (KeyError, IndexError)` clauses print their diagnostic and return
`(None, None, None)`; any other exception (`TypeError`, `AttributeError`)
propagates. The result pairs the returned triple with the printed lines. -/
def get_splunkbase_app_info (app_id : String) (rApp rRel : ReqResult) :
    Except PyErr ((Py × Py × Py) × List String) :=
  match tryBody app_id rApp rRel with
  | .ok (n, v, u, msgs) => .ok ((n, v, u), msgs)
  | .error (.requestException d) =>
      .ok ((.none, .none, .none),
        ["Error fetching details for app " ++ app_id ++ ": " ++
          errStr (.requestException d)])
  | .error (.keyError k) =>
      .ok ((.none, .none, .none),
        ["Unexpected response structure for app " ++ app_id ++ ": " ++
          errStr (.keyError k)])
  | .error (.indexError d) =>
      .ok ((.none, .none, .none),
        ["Unexpected response structure for app " ++ app_id ++ ": " ++
          errStr (.indexError d)])
  | .error e => .error e

/-- Extract the underlying strings of a list of Python values, raising
`TypeError` at the first non-string (as `str.join` does). -/
def strList : List Py → Except PyErr (List String)
  | [] => .ok []
  | .str s :: xs => (strList xs).map (fun l => s :: l)
  | v :: _ => .error (.typeError
      ("sequence item: expected str instance, " ++ pyTypeName v ++ " found"))

/-- `sep.join(xs)`. -/
def pyJoin (sep : String) (xs : List Py) : Except PyErr String :=
  (strList xs).map (String.intercalate sep)

/-- The `for` loop of `get_multiple_splunkbase_urls`: call
`get_splunkbase_app_info` on each id (the world assigns each id its two
request outcomes), keep the url when it is truthy. Returns the kept urls and
all printed lines, or the first uncaught exception. -/
def collectLoop (world : String → ReqResult × ReqResult) :
    List String → Except PyErr (List Py × List String)
  | [] => .ok ([], [])
  | app_id :: rest => do
      let ((_, _, url), msgs) ←
        get_splunkbase_app_info app_id (world app_id).1 (world app_id).2
      let (urls, msgs2) ← collectLoop world rest
      pure ((if pyTruthy url then url :: urls else urls), msgs ++ msgs2)

/-- `get_multiple_splunkbase_urls(app_ids)` under a world assigning request
outcomes: run the loop, then `",".join(urls)`. -/
def get_multiple_splunkbase_urls (app_ids : List String)
    (world : String → ReqResult × ReqResult) :
    Except PyErr (String × List String) := do
  let (urls, msgs) ← collectLoop world app_ids
  let s ← pyJoin "," urls
  pure (s, msgs)

/-- The `app_name` the script computes from a successful app payload that is a
dict: `app_data.get("title", "Unknown")`. -/
def appName (akvs : List (String × Py)) : Py :=
  (lookupKV akvs "title").getD (.str "Unknown")

/-- One lookup of an app id under a world: `get_splunkbase_app_info` applied
to the id's two request outcomes. -/
def callResult (world : String → ReqResult × ReqResult) (app_id : String) :
    Except PyErr ((Py × Py × Py) × List String) :=
  get_splunkbase_app_info app_id (world app_id).1 (world app_id).2

/-- The download url an id contributes under a world, when its lookup returns
and the url slot holds a string. -/
def presentUrl (world : String → ReqResult × ReqResult) (app_id : String) :
    Option String :=
  match callResult world app_id with
  | .ok ((_, _, .str s), _) => some s
  | _ => Option.none

/-- Two successive lookups of the same id under the same request outcomes
(the script keeps no state between calls, so the embedding is pure and the
second call sees exactly what the first saw). -/
def callTwice (app_id : String) (rApp rRel : ReqResult) :
    Except PyErr ((Py × Py × Py) × List String) ×
      Except PyErr ((Py × Py × Py) × List String) :=
  (get_splunkbase_app_info app_id rApp rRel,
   get_splunkbase_app_info app_id rApp rRel)

/-- Whether a lookup completed without an uncaught exception (its caller gets
a triple back rather than a raised error). -/
def noRaise (r : Except PyErr ((Py × Py × Py) × List String)) : Bool :=
  match r with
  | .ok _ => true
  | .error _ => false

/-! ### General lemmas about the single-lookup function -/

/-- The title extraction never yields `None` unless the payload maps `title`
to JSON `null`. -/
theorem appName_ne_none (akvs : List (String × Py))
    (h : lookupKV akvs "title" ≠ some Py.none) : appName akvs ≠ Py.none := by
  unfold appName
  rcases hl : lookupKV akvs "title" with _ | v
  · simp
  · simp only [Option.getD_some]
    intro hv
    exact h (by rw [hl, hv])

/-! ### C1: fully successful lookups -/

/-- C1 (amended): when the app payload is a dict, the release payload is a
non-empty list whose element 0 is a dict carrying a `name` field, AND neither
the `title` value nor the `name` value is JSON `null`, the lookup returns all
three slots present, with the version equal to element 0's `name` value and the
url equal to the exact interpolation of base, app id and version. (The original
claim omitted the two non-`null` side conditions; see the counterexample.) -/
theorem app_info_success_all_present (app_id : String)
    (akvs ekvs : List (String × Py)) (rest : List Py) (nv : Py)
    (htitle : lookupKV akvs "title" ≠ some Py.none)
    (hname : lookupKV ekvs "name" = some nv) (hnv : nv ≠ Py.none) :
    get_splunkbase_app_info app_id (.ok (.dict akvs))
        (.ok (.list (.dict ekvs :: rest)))
      = .ok ((appName akvs, nv,
          .str ("https://splunkbase.splunk.com/app/" ++ app_id ++ "/release/" ++
            pyStr nv ++ "/download/")), [])
    ∧ appName akvs ≠ Py.none ∧ nv ≠ Py.none
    ∧ Py.str ("https://splunkbase.splunk.com/app/" ++ app_id ++ "/release/" ++
        pyStr nv ++ "/download/") ≠ Py.none := by
  refine ⟨?_, appName_ne_none akvs htitle, hnv, by simp⟩
  simp [get_splunkbase_app_info, tryBody, fetchJson, pyGet, pyTruthy, pyIsList,
    pyLenPos, pyIndex, pyGetItem, hname, appName, bind, Except.bind,
    pure, Except.pure]

/-- C1 counterexample: both payloads are well-formed in the claim's sense (the
app JSON is an object, the release JSON is a non-empty list whose element 0 has
a `name` field), yet the returned name slot is `None` — absent — because the
object maps `title` to JSON `null`. The claim promised all three present. -/
theorem app_info_success_name_can_be_absent :
    get_splunkbase_app_info "42" (.ok (.dict [("title", Py.none)]))
      (.ok (.list [.dict [("name", .str "3.1")]]))
    = .ok ((Py.none, .str "3.1",
        .str "https://splunkbase.splunk.com/app/42/release/3.1/download/"), []) := rfl

/-- Witness for C1's amended theorem at a concrete input. -/
theorem app_info_success_all_present_holds :
    lookupKV [("title", Py.str "Security Essentials")] "title" ≠ some Py.none ∧
    lookupKV [("name", Py.str "3.8.1")] "name" = some (Py.str "3.8.1") ∧
    Py.str "3.8.1" ≠ Py.none ∧
    (get_splunkbase_app_info "3435" (.ok (.dict [("title", .str "Security Essentials")]))
        (.ok (.list [.dict [("name", .str "3.8.1")]]))
      = .ok ((appName [("title", Py.str "Security Essentials")], Py.str "3.8.1",
          .str ("https://splunkbase.splunk.com/app/" ++ "3435" ++ "/release/" ++
            pyStr (Py.str "3.8.1") ++ "/download/")), [])
    ∧ appName [("title", Py.str "Security Essentials")] ≠ Py.none
    ∧ Py.str "3.8.1" ≠ Py.none
    ∧ Py.str ("https://splunkbase.splunk.com/app/" ++ "3435" ++ "/release/" ++
        pyStr (Py.str "3.8.1") ++ "/download/") ≠ Py.none) :=
  ⟨by simp [lookupKV], by simp [lookupKV], by simp,
    app_info_success_all_present "3435" _ _ _ _
      (by simp [lookupKV]) (by simp [lookupKV]) (by simp)⟩

/-! ### C2: transport failure on the release request -/

/-- C2 (amended): when the app request succeeds with a dict payload but the
release request fails with a transport error or non-2xx status, the lookup
returns `(None, None, None)` plus the request-failure diagnostic: the name from
the first call is NOT preserved (the single `except requests.RequestException`
clause of lines 47-49 discards it). The name is preserved only on the
empty/non-list release-payload path. -/
theorem release_request_failure_all_absent (app_id d : String)
    (akvs : List (String × Py)) (rRel : ReqResult)
    (hfail : rRel = .connError d ∨ rRel = .httpError d) :
    get_splunkbase_app_info app_id (.ok (.dict akvs)) rRel
      = .ok ((Py.none, Py.none, Py.none),
          ["Error fetching details for app " ++ app_id ++ ": " ++ d]) := by
  rcases hfail with rfl | rfl <;> rfl

/-- C2 counterexample: the app request succeeds with `title` `"My App"`, the
release request fails with a transport error; the result is all-absent — the
claim's `(name, absent, absent)` with the name preserved does not hold. -/
theorem release_request_failure_discards_name :
    get_splunkbase_app_info "5" (.ok (.dict [("title", .str "My App")]))
      (.connError "timeout")
    = .ok ((Py.none, Py.none, Py.none),
        ["Error fetching details for app 5: timeout"]) := rfl

/-- Witness for C2's amended theorem at a concrete input. -/
theorem release_request_failure_all_absent_holds :
    (ReqResult.httpError "404 Client Error" = ReqResult.connError "404 Client Error" ∨
      ReqResult.httpError "404 Client Error" = ReqResult.httpError "404 Client Error") ∧
    get_splunkbase_app_info "7931" (.ok (.dict [("title", .str "T")]))
        (.httpError "404 Client Error")
      = .ok ((Py.none, Py.none, Py.none),
          ["Error fetching details for app " ++ "7931" ++ ": " ++ "404 Client Error"]) :=
  ⟨Or.inr rfl,
    release_request_failure_all_absent "7931" "404 Client Error" _ _ (Or.inr rfl)⟩

/-! ### C5: empty or non-list release payload -/

/-- C5 (amended): when the app payload is a dict and the release payload
parses but is an empty array or not a list, the lookup prints the
unexpected-structure diagnostic and returns `(app_name, None, None)` — the
version and url are absent and the name extracted from the first call is kept.
That name slot is present unless the app payload maps `title` to JSON `null`
(then it too is `None`; see the counterexample, which the original claim's
unconditional "name present" misses). -/
theorem empty_release_keeps_name (app_id : String)
    (akvs : List (String × Py)) (r : Py)
    (hshape : r = .list [] ∨ pyIsList r = false) :
    get_splunkbase_app_info app_id (.ok (.dict akvs)) (.ok r)
      = .ok ((appName akvs, Py.none, Py.none),
          ["Error: Unexpected response structure for app " ++ app_id])
    ∧ (lookupKV akvs "title" ≠ some Py.none → appName akvs ≠ Py.none) := by
  refine ⟨?_, appName_ne_none akvs⟩
  rcases hshape with rfl | hr
  · rfl
  · cases r <;> simp [pyIsList] at hr ⊢ <;>
      simp [get_splunkbase_app_info, tryBody, fetchJson, pyGet, pyTruthy,
        pyIsList, pyLenPos, appName, bind, Except.bind, pure, Except.pure]

/-- C5 counterexample: the app endpoint succeeds with `{"title": null}` and the
release endpoint returns `[]`; the name slot of the result is `None` — absent —
although the claim promised "name present". -/
theorem empty_release_name_can_be_absent :
    get_splunkbase_app_info "9" (.ok (.dict [("title", Py.none)])) (.ok (.list []))
    = .ok ((Py.none, Py.none, Py.none),
        ["Error: Unexpected response structure for app 9"]) := rfl

/-- Witness for C5's amended theorem at a concrete input. -/
theorem empty_release_keeps_name_holds :
    (Py.list [] = Py.list [] ∨ pyIsList (Py.list []) = false) ∧
    (get_splunkbase_app_info "1876" (.ok (.dict [("title", .str "N")])) (.ok (.list []))
      = .ok ((appName [("title", Py.str "N")], Py.none, Py.none),
          ["Error: Unexpected response structure for app " ++ "1876"])
    ∧ (lookupKV [("title", Py.str "N")] "title" ≠ some Py.none →
        appName [("title", Py.str "N")] ≠ Py.none)) :=
  ⟨Or.inl rfl, empty_release_keeps_name "1876" _ _ (Or.inl rfl)⟩

/-! ### C6: failure of the app-metadata request -/

/-- C6 (confirmed): when the first request fails with a non-2xx status or a
network failure, the lookup returns `(None, None, None)` and prints one
diagnostic line, which contains the app id and the error text (it is literally
the interpolation of both). -/
theorem app_request_failure_all_absent (app_id d : String)
    (rApp rRel : ReqResult)
    (hfail : rApp = .connError d ∨ rApp = .httpError d) :
    get_splunkbase_app_info app_id rApp rRel
      = .ok ((Py.none, Py.none, Py.none),
          [("Error fetching details for app " ++ app_id) ++ (": " ++ d)])
    ∧ ("Error fetching details for app " ++ app_id) ++ (": " ++ d)
      = ("Error fetching details for app " ++ app_id ++ ": ") ++ d := by
  constructor
  · rcases hfail with rfl | rfl <;>
      simp [get_splunkbase_app_info, tryBody, fetchJson, errStr, bind,
        Except.bind, String.append_assoc]
  · simp [String.append_assoc]

/-- Witness for C6's theorem at a concrete input. -/
theorem app_request_failure_all_absent_holds :
    (ReqResult.connError "connection refused" =
        ReqResult.connError "connection refused" ∨
      ReqResult.connError "connection refused" =
        ReqResult.httpError "connection refused") ∧
    (get_splunkbase_app_info "833" (.connError "connection refused")
        (.ok (.list []))
      = .ok ((Py.none, Py.none, Py.none),
          [("Error fetching details for app " ++ "833") ++
            (": " ++ "connection refused")])
    ∧ ("Error fetching details for app " ++ "833") ++ (": " ++ "connection refused")
      = ("Error fetching details for app " ++ "833" ++ ": ") ++ "connection refused") :=
  ⟨Or.inl rfl,
    app_request_failure_all_absent "833" "connection refused" _ _ (Or.inl rfl)⟩

/-! ### C7: missing-key errors while reading the release JSON -/

/-- C7 (confirmed): when the release payload is a non-empty list whose
element 0 is a dict lacking a `name` field, the `KeyError` is handled exactly
like a request failure: the lookup prints the unexpected-structure diagnostic
and returns `(None, None, None)`, discarding the already-extracted name. -/
theorem missing_name_key_all_absent (app_id : String)
    (akvs ekvs : List (String × Py)) (rest : List Py)
    (hname : lookupKV ekvs "name" = Option.none) :
    get_splunkbase_app_info app_id (.ok (.dict akvs))
        (.ok (.list (.dict ekvs :: rest)))
      = .ok ((Py.none, Py.none, Py.none),
          ["Unexpected response structure for app " ++ app_id ++ ": " ++
            errStr (.keyError "name")]) := by
  simp [get_splunkbase_app_info, tryBody, fetchJson, pyGet, pyTruthy, pyIsList,
    pyLenPos, pyIndex, pyGetItem, hname, bind, Except.bind, pure, Except.pure]

/-- Witness for C7's theorem at a concrete input. -/
theorem missing_name_key_all_absent_holds :
    lookupKV [("version", Py.str "2.0")] "name" = Option.none ∧
    get_splunkbase_app_info "7" (.ok (.dict [("title", .str "T")]))
        (.ok (.list [.dict [("version", .str "2.0")]]))
      = .ok ((Py.none, Py.none, Py.none),
          ["Unexpected response structure for app " ++ "7" ++ ": " ++
            errStr (.keyError "name")]) :=
  ⟨by simp [lookupKV], missing_name_key_all_absent "7" _ _ _ (by simp [lookupKV])⟩

/-- A string with a non-empty suffix is non-empty. -/
theorem append_ne_empty_right (s t : String) (h : t ≠ "") : s ++ t ≠ "" := by
  intro he
  apply h
  apply String.ext
  have hd := congrArg String.data he
  rw [String.data_append] at hd
  exact (List.append_eq_nil.mp hd).2

/-- Shape of every triple the lookup can return to its caller: either version
and url are both absent, or the url is a non-empty string (the interpolated
download URL). -/
theorem result_shapes (app_id : String) (rApp rRel : ReqResult)
    (n v u : Py) (msgs : List String)
    (h : get_splunkbase_app_info app_id rApp rRel = .ok ((n, v, u), msgs)) :
    (v = Py.none ∧ u = Py.none) ∨ ∃ s, u = Py.str s ∧ s ≠ "" := by
  cases rApp with
  | connError d => left; cases h; exact ⟨rfl, rfl⟩
  | httpError d => left; cases h; exact ⟨rfl, rfl⟩
  | jsonError d => left; cases h; exact ⟨rfl, rfl⟩
  | ok b =>
    cases b with
    | dict akvs =>
      cases rRel with
      | connError d => left; cases h; exact ⟨rfl, rfl⟩
      | httpError d => left; cases h; exact ⟨rfl, rfl⟩
      | jsonError d => left; cases h; exact ⟨rfl, rfl⟩
      | ok r =>
        cases r with
        | list xs =>
          cases xs with
          | nil => left; cases h; exact ⟨rfl, rfl⟩
          | cons e0 rest =>
            cases e0 with
            | dict ekvs =>
              rcases hkv : lookupKV ekvs "name" with _ | nv
              · simp [get_splunkbase_app_info, tryBody, fetchJson, pyGet,
                  pyTruthy, pyIsList, pyLenPos, pyIndex, pyGetItem, hkv,
                  bind, Except.bind, pure, Except.pure] at h
                left
                exact ⟨h.1.2.1.symm, h.1.2.2.symm⟩
              · simp [get_splunkbase_app_info, tryBody, fetchJson, pyGet,
                  pyTruthy, pyIsList, pyLenPos, pyIndex, pyGetItem, hkv,
                  bind, Except.bind, pure, Except.pure] at h
                right
                refine ⟨_, h.1.2.2.symm, ?_⟩
                exact append_ne_empty_right _ _ (by decide)
            | none =>
              simp [get_splunkbase_app_info, tryBody, fetchJson, pyGet,
                pyTruthy, pyIsList, pyLenPos, pyIndex, pyGetItem,
                bind, Except.bind, pure, Except.pure] at h
            | bool b2 =>
              simp [get_splunkbase_app_info, tryBody, fetchJson, pyGet,
                pyTruthy, pyIsList, pyLenPos, pyIndex, pyGetItem,
                bind, Except.bind, pure, Except.pure] at h
            | int n2 =>
              simp [get_splunkbase_app_info, tryBody, fetchJson, pyGet,
                pyTruthy, pyIsList, pyLenPos, pyIndex, pyGetItem,
                bind, Except.bind, pure, Except.pure] at h
            | str s2 =>
              simp [get_splunkbase_app_info, tryBody, fetchJson, pyGet,
                pyTruthy, pyIsList, pyLenPos, pyIndex, pyGetItem,
                bind, Except.bind, pure, Except.pure] at h
            | list xs2 =>
              simp [get_splunkbase_app_info, tryBody, fetchJson, pyGet,
                pyTruthy, pyIsList, pyLenPos, pyIndex, pyGetItem,
                bind, Except.bind, pure, Except.pure] at h
        | none =>
          left
          simp [get_splunkbase_app_info, tryBody, fetchJson, pyGet, pyTruthy,
            pyIsList, pyLenPos, bind, Except.bind, pure, Except.pure] at h
          exact ⟨h.1.2.1.symm, h.1.2.2.symm⟩
        | bool b2 =>
          left
          simp [get_splunkbase_app_info, tryBody, fetchJson, pyGet, pyTruthy,
            pyIsList, pyLenPos, bind, Except.bind, pure, Except.pure] at h
          exact ⟨h.1.2.1.symm, h.1.2.2.symm⟩
        | int n2 =>
          left
          simp [get_splunkbase_app_info, tryBody, fetchJson, pyGet, pyTruthy,
            pyIsList, pyLenPos, bind, Except.bind, pure, Except.pure] at h
          exact ⟨h.1.2.1.symm, h.1.2.2.symm⟩
        | str s2 =>
          left
          simp [get_splunkbase_app_info, tryBody, fetchJson, pyGet, pyTruthy,
            pyIsList, pyLenPos, bind, Except.bind, pure, Except.pure] at h
          exact ⟨h.1.2.1.symm, h.1.2.2.symm⟩
        | dict dkvs =>
          left
          simp [get_splunkbase_app_info, tryBody, fetchJson, pyGet, pyTruthy,
            pyIsList, pyLenPos, bind, Except.bind, pure, Except.pure] at h
          exact ⟨h.1.2.1.symm, h.1.2.2.symm⟩
    | none => cases h
    | bool b2 => cases h
    | int n2 => cases h
    | str s2 => cases h
    | list xs2 => cases h

/-! ### C3: which failures are converted, which propagate -/

/-- C3 (amended): the handlers convert every `RequestException`, `KeyError`
and `IndexError` into absent slots plus a printed diagnostic, so no error
reaches the caller PROVIDED the successful payloads have the shapes the code
subscripts: an app payload that parses to a dict, and a release payload whose
element 0 (when the release list is non-empty) is a dict. Outside those shapes
the claim fails: `app_data.get` on a non-dict raises an uncaught
`AttributeError`, and `release_data[0]["name"]` on a non-dict element raises an
uncaught `TypeError` (see the counterexample). -/
theorem handled_failures_do_not_propagate (app_id : String)
    (rApp rRel : ReqResult)
    (hApp : ∀ b, rApp = .ok b → ∃ kvs, b = Py.dict kvs)
    (hRel : ∀ e0 rest, rRel = .ok (.list (e0 :: rest)) →
      ∃ kvs, e0 = Py.dict kvs) :
    noRaise (get_splunkbase_app_info app_id rApp rRel) = true := by
  cases rApp with
  | connError d => rfl
  | httpError d => rfl
  | jsonError d => rfl
  | ok b =>
    obtain ⟨akvs, rfl⟩ := hApp b rfl
    cases rRel with
    | connError d => rfl
    | httpError d => rfl
    | jsonError d => rfl
    | ok r =>
      cases r with
      | list xs =>
        cases xs with
        | nil => rfl
        | cons e0 rest =>
          obtain ⟨ekvs, rfl⟩ := hRel e0 rest rfl
          rcases hkv : lookupKV ekvs "name" with _ | nv <;>
            simp [noRaise, get_splunkbase_app_info, tryBody, fetchJson, pyGet,
              pyTruthy, pyIsList, pyLenPos, pyIndex, pyGetItem, hkv,
              bind, Except.bind, pure, Except.pure]
      | none => rfl
      | bool b2 =>
        simp [noRaise, get_splunkbase_app_info, tryBody, fetchJson, pyGet,
          pyTruthy, pyIsList, pyLenPos, bind, Except.bind, pure, Except.pure]
      | int n2 =>
        simp [noRaise, get_splunkbase_app_info, tryBody, fetchJson, pyGet,
          pyTruthy, pyIsList, pyLenPos, bind, Except.bind, pure, Except.pure]
      | str s2 =>
        simp [noRaise, get_splunkbase_app_info, tryBody, fetchJson, pyGet,
          pyTruthy, pyIsList, pyLenPos, bind, Except.bind, pure, Except.pure]
      | dict dkvs =>
        simp [noRaise, get_splunkbase_app_info, tryBody, fetchJson, pyGet,
          pyTruthy, pyIsList, pyLenPos, bind, Except.bind, pure, Except.pure]

/-- C3 counterexample: an app endpoint answering 200 with body `[]` (perfectly
possible "malformed response body") makes `app_data.get("title", "Unknown")`
raise `AttributeError`, which no `except` clause catches: the error propagates
to the caller instead of being converted to absent slots. -/
theorem nondict_app_payload_raises :
    noRaise (get_splunkbase_app_info "1" (.ok (.list [])) (.ok (.list []))) = false
    ∧ get_splunkbase_app_info "1" (.ok (.list [])) (.ok (.list []))
      = .error (.attributeError
          "\x27list\x27 object has no attribute \x27get\x27") :=
  ⟨rfl, rfl⟩

/-- Witness for C3's amended theorem at a concrete input. -/
theorem handled_failures_do_not_propagate_holds :
    (∀ b, ReqResult.ok (Py.dict [("title", Py.str "T")]) = .ok b →
      ∃ kvs, b = Py.dict kvs) ∧
    (∀ e0 rest, ReqResult.jsonError "Expecting value" = .ok (.list (e0 :: rest)) →
      ∃ kvs, e0 = Py.dict kvs) ∧
    noRaise (get_splunkbase_app_info "4353" (.ok (.dict [("title", .str "T")]))
        (.jsonError "Expecting value")) = true := by
  refine ⟨?_, ?_, ?_⟩
  · intro b hb
    injection hb with hb2
    exact ⟨_, hb2.symm⟩
  · intro e0 rest hb
    cases hb
  · exact handled_failures_do_not_propagate "4353" _ _
      (fun b hb => by injection hb with hb2; exact ⟨_, hb2.symm⟩)
      (fun e0 rest hb => by cases hb)

/-! ### C8: the name slot and the `title` field -/

/-- C8 (amended): when the app request succeeds with a dict payload, any
triple the lookup returns carries as its name slot exactly
`app_data.get("title", "Unknown")` — the `title` value when the field exists,
the literal `"Unknown"` otherwise — UNLESS a later caught failure (release
request error, or `KeyError`/`IndexError` while reading the release JSON)
blanked the whole triple, in which case the name slot is absent along with the
other two. The original claim, which promised the title unconditionally, fails
on that second path (see the counterexample). -/
theorem name_slot_from_title (app_id : String) (akvs : List (String × Py))
    (rRel : ReqResult) (n v u : Py) (msgs : List String)
    (h : get_splunkbase_app_info app_id (.ok (.dict akvs)) rRel
      = .ok ((n, v, u), msgs)) :
    n = appName akvs ∨ (n = Py.none ∧ v = Py.none ∧ u = Py.none) := by
  cases rRel with
  | connError d => right; cases h; exact ⟨rfl, rfl, rfl⟩
  | httpError d => right; cases h; exact ⟨rfl, rfl, rfl⟩
  | jsonError d => right; cases h; exact ⟨rfl, rfl, rfl⟩
  | ok r =>
    cases r with
    | list xs =>
      cases xs with
      | nil => left; cases h; rfl
      | cons e0 rest =>
        cases e0 with
        | dict ekvs =>
          rcases hkv : lookupKV ekvs "name" with _ | nv
          · right
            simp [get_splunkbase_app_info, tryBody, fetchJson, pyGet, pyTruthy,
              pyIsList, pyLenPos, pyIndex, pyGetItem, hkv, bind, Except.bind,
              pure, Except.pure] at h
            exact ⟨h.1.1.symm, h.1.2.1.symm, h.1.2.2.symm⟩
          · left
            simp [get_splunkbase_app_info, tryBody, fetchJson, pyGet, pyTruthy,
              pyIsList, pyLenPos, pyIndex, pyGetItem, hkv, appName,
              bind, Except.bind, pure, Except.pure] at h
            exact h.1.1.symm
        | none =>
          simp [get_splunkbase_app_info, tryBody, fetchJson, pyGet, pyTruthy,
            pyIsList, pyLenPos, pyIndex, pyGetItem, bind, Except.bind,
            pure, Except.pure] at h
        | bool b2 =>
          simp [get_splunkbase_app_info, tryBody, fetchJson, pyGet, pyTruthy,
            pyIsList, pyLenPos, pyIndex, pyGetItem, bind, Except.bind,
            pure, Except.pure] at h
        | int n2 =>
          simp [get_splunkbase_app_info, tryBody, fetchJson, pyGet, pyTruthy,
            pyIsList, pyLenPos, pyIndex, pyGetItem, bind, Except.bind,
            pure, Except.pure] at h
        | str s2 =>
          simp [get_splunkbase_app_info, tryBody, fetchJson, pyGet, pyTruthy,
            pyIsList, pyLenPos, pyIndex, pyGetItem, bind, Except.bind,
            pure, Except.pure] at h
        | list xs2 =>
          simp [get_splunkbase_app_info, tryBody, fetchJson, pyGet, pyTruthy,
            pyIsList, pyLenPos, pyIndex, pyGetItem, bind, Except.bind,
            pure, Except.pure] at h
    | none => left; cases h; rfl
    | bool b2 =>
      left
      simp [get_splunkbase_app_info, tryBody, fetchJson, pyGet, pyTruthy,
        pyIsList, pyLenPos, appName, bind, Except.bind, pure, Except.pure] at h
      exact h.1.1.symm
    | int n2 =>
      left
      simp [get_splunkbase_app_info, tryBody, fetchJson, pyGet, pyTruthy,
        pyIsList, pyLenPos, appName, bind, Except.bind, pure, Except.pure] at h
      exact h.1.1.symm
    | str s2 =>
      left
      simp [get_splunkbase_app_info, tryBody, fetchJson, pyGet, pyTruthy,
        pyIsList, pyLenPos, appName, bind, Except.bind, pure, Except.pure] at h
      exact h.1.1.symm
    | dict dkvs =>
      left
      simp [get_splunkbase_app_info, tryBody, fetchJson, pyGet, pyTruthy,
        pyIsList, pyLenPos, appName, bind, Except.bind, pure, Except.pure] at h
      exact h.1.1.symm

/-- C8 counterexample: the app endpoint answers with `{"title": "X"}` but the
release request then fails; the returned name slot is `None`, not `"X"` (and
not `"Unknown"`), contradicting the claim that the name slot always reflects
the `title` field whenever the app endpoint returned a JSON object. -/
theorem name_slot_blanked_by_release_failure :
    get_splunkbase_app_info "11" (.ok (.dict [("title", .str "X")]))
      (.httpError "500 Server Error")
    = .ok ((Py.none, Py.none, Py.none),
        ["Error fetching details for app 11: 500 Server Error"]) := rfl

/-- Witness for C8's amended theorem at a concrete input. -/
theorem name_slot_from_title_holds :
    get_splunkbase_app_info "1876" (.ok (.dict []))
        (.ok (.list [.dict [("name", .str "9")]]))
      = .ok ((Py.str "Unknown", Py.str "9",
          .str "https://splunkbase.splunk.com/app/1876/release/9/download/"), []) ∧
    (Py.str "Unknown" = appName [] ∨
      (Py.str "Unknown" = Py.none ∧ Py.str "9" = Py.none ∧
        Py.str "https://splunkbase.splunk.com/app/1876/release/9/download/" = Py.none)) :=
  ⟨rfl, name_slot_from_title "1876" []
    (.ok (.list [.dict [("name", .str "9")]])) (Py.str "Unknown") (Py.str "9")
    (Py.str "https://splunkbase.splunk.com/app/1876/release/9/download/") [] rfl⟩

/-! ### C9: statelessness of repeated lookups -/

/-- C9 (confirmed): `get_splunkbase_app_info` reads no global and writes no
global — its embedding is a pure function of the app id and the two request
outcomes — so two calls with the same id and identical responses return
identical triples (and print identical diagnostics): the two components of
`callTwice` always agree. -/
theorem repeated_lookup_same_result (app_id : String) (rApp rRel : ReqResult) :
    (callTwice app_id rApp rRel).1 = (callTwice app_id rApp rRel).2 := rfl

/-! ### C10: shapes of the returned triple -/

/-- C10 (amended): for every triple the lookup returns, if the url slot is
absent then the version slot is absent too, and a present url slot is always a
string (the interpolated download URL). The claim's stronger three-shape
classification — which also forces version and url to be absent whenever name
is — fails: a `null` `title` value yields `(absent, present, present)` (see
the counterexample), and a `null` release `name` value yields a present url
with an absent version. -/
theorem url_present_requires_string (app_id : String) (rApp rRel : ReqResult)
    (n v u : Py) (msgs : List String)
    (h : get_splunkbase_app_info app_id rApp rRel = .ok ((n, v, u), msgs)) :
    (u = Py.none → v = Py.none) ∧ (u ≠ Py.none → ∃ s, u = Py.str s) := by
  rcases result_shapes app_id rApp rRel n v u msgs h with ⟨hv, hu⟩ | ⟨s, hu, _⟩
  · exact ⟨fun _ => hv, fun hne => absurd hu hne⟩
  · constructor
    · intro hn
      rw [hu] at hn
      cases hn
    · intro _
      exact ⟨s, hu⟩

/-- C10 counterexample: with app payload `{"title": null}` and a well-formed
release list, the lookup returns name absent but version and url present —
a shape the claimed invariant rules out. -/
theorem triple_shape_violated_by_null_title :
    get_splunkbase_app_info "77" (.ok (.dict [("title", Py.none)]))
      (.ok (.list [.dict [("name", .str "2.0")]]))
    = .ok ((Py.none, .str "2.0",
        .str "https://splunkbase.splunk.com/app/77/release/2.0/download/"), []) := rfl

/-- Witness for C10's amended theorem at a concrete input. -/
theorem url_present_requires_string_holds :
    get_splunkbase_app_info "99" (.ok (.dict [("title", .str "V")]))
        (.connError "refused")
      = .ok ((Py.none, Py.none, Py.none),
          ["Error fetching details for app 99: refused"]) ∧
    ((Py.none = Py.none → Py.none = Py.none) ∧
      (Py.none ≠ Py.none → ∃ s, Py.none = Py.str s)) :=
  ⟨rfl, url_present_requires_string "99" (.ok (.dict [("title", .str "V")]))
    (.connError "refused") Py.none Py.none Py.none
    ["Error fetching details for app 99: refused"] rfl⟩

/-! ### C4: aggregation over several identifiers -/

/-- Joining a list of Python strings succeeds and concatenates the underlying
strings. -/
theorem strList_map_str (l : List String) :
    strList (l.map Py.str) = .ok l := by
  induction l with
  | nil => rfl
  | cons s rest ih => simp [strList, ih, Except.map]

/-- The loop of `get_multiple_splunkbase_urls` collects exactly the present
urls, in input order, when every lookup returns a triple. -/
theorem collectLoop_collects (world : String → ReqResult × ReqResult)
    (app_ids : List String)
    (h : ∀ a ∈ app_ids, ∃ t m, callResult world a = .ok (t, m)) :
    ∃ msgs, collectLoop world app_ids
      = .ok ((app_ids.filterMap (presentUrl world)).map Py.str, msgs) := by
  induction app_ids with
  | nil => exact ⟨[], rfl⟩
  | cons a rest ih =>
    obtain ⟨t, m, hcall⟩ := h a (List.mem_cons_self a rest)
    obtain ⟨n, v, u⟩ := t
    obtain ⟨msgs2, ih2⟩ := ih (fun b hb => h b (List.mem_cons_of_mem a hb))
    have hg : get_splunkbase_app_info a (world a).1 (world a).2
        = .ok ((n, v, u), m) := hcall
    rcases result_shapes a (world a).1 (world a).2 n v u m hg with
      ⟨hv, hu⟩ | ⟨s, hu, hs⟩
    · subst hu
      have hpu : presentUrl world a = Option.none := by
        simp [presentUrl, callResult, hg]
      refine ⟨m ++ msgs2, ?_⟩
      simp [collectLoop, hg, ih2, pyTruthy, hpu, bind, Except.bind,
        pure, Except.pure]
    · subst hu
      have hpu : presentUrl world a = some s := by
        simp [presentUrl, callResult, hg]
      refine ⟨m ++ msgs2, ?_⟩
      simp [collectLoop, hg, ih2, pyTruthy, hpu, hs, bind, Except.bind,
        pure, Except.pure]

/-- C4 (confirmed): whenever every identifier's lookup returns a triple (no
uncaught exception), `get_multiple_splunkbase_urls` returns the comma-join of
the download urls of exactly the identifiers whose url slot is present, in
input order, skipping the absent ones; an empty input list (or one whose every
lookup came back without a url) joins to the empty string. -/
theorem multiple_urls_joined (world : String → ReqResult × ReqResult)
    (app_ids : List String)
    (h : ∀ a ∈ app_ids, ∃ t m, callResult world a = .ok (t, m)) :
    ∃ msgs, get_multiple_splunkbase_urls app_ids world
      = .ok (String.intercalate ","
          (app_ids.filterMap (presentUrl world)), msgs) := by
  obtain ⟨msgs, hc⟩ := collectLoop_collects world app_ids h
  refine ⟨msgs, ?_⟩
  simp [get_multiple_splunkbase_urls, hc, pyJoin, strList_map_str,
    bind, Except.bind, pure, Except.pure, Except.map]

/-- Witness for C4's theorem: identifiers `[A, B, C]` where `B`'s requests
fail and `A`, `C` succeed; the join is `urlA,urlC` and the empty input joins
to `""`. -/
theorem multiple_urls_joined_holds :
    (∀ a ∈ ["A", "B", "C"], ∃ t m,
      callResult (fun i =>
        if i == "B" then (.connError "x", .connError "x")
        else (.ok (.dict [("title", .str "t")]),
          .ok (.list [.dict [("name", .str "1")]]))) a = .ok (t, m)) ∧
    (∃ msgs, get_multiple_splunkbase_urls ["A", "B", "C"]
        (fun i =>
          if i == "B" then (.connError "x", .connError "x")
          else (.ok (.dict [("title", .str "t")]),
            .ok (.list [.dict [("name", .str "1")]])))
      = .ok (String.intercalate ","
          (["A", "B", "C"].filterMap (presentUrl (fun i =>
            if i == "B" then (.connError "x", .connError "x")
            else (.ok (.dict [("title", .str "t")]),
              .ok (.list [.dict [("name", .str "1")]]))))), msgs)) ∧
    String.intercalate ","
        (["A", "B", "C"].filterMap (presentUrl (fun i =>
          if i == "B" then (.connError "x", .connError "x")
          else (.ok (.dict [("title", .str "t")]),
            .ok (.list [.dict [("name", .str "1")]])))))
      = "https://splunkbase.splunk.com/app/A/release/1/download/," ++
        "https://splunkbase.splunk.com/app/C/release/1/download/" := by
  have h : ∀ a ∈ ["A", "B", "C"], ∃ t m,
      callResult (fun i =>
        if i == "B" then (.connError "x", .connError "x")
        else (.ok (.dict [("title", .str "t")]),
          .ok (.list [.dict [("name", .str "1")]]))) a = .ok (t, m) := by
    intro a ha
    simp only [List.mem_cons, List.not_mem_nil, or_false] at ha
    rcases ha with rfl | rfl | rfl
    · exact ⟨_, _, rfl⟩
    · exact ⟨_, _, rfl⟩
    · exact ⟨_, _, rfl⟩
  exact ⟨h, multiple_urls_joined _ _ h, by rfl⟩
